import Mathlib

/-!
Verification of the GlowBit LED library's pixel addressing and compositing
engine (`glowbit.py`): the colour codec, the tiled-matrix coordinate
remappers, the pixel buffer write primitives, the brightness-scaling flush
adapters, and the frame-rate limiter.  Each Python function of interest is
shallowly embedded as an executable Lean definition; machine integers are
modelled as `Nat`/`Int` (MicroPython viper arithmetic never overflows 32
bits on the inputs considered here), and Python's floor division and modulo
on `int` are `Int.ediv`/`Int.emod` (they agree for the positive divisors
used throughout).
-/

namespace Glowbit

/-- `colourFunctions.rgb2GBColour`: `return ( (r<<16) | (g<<8) | b )`. -/
def rgb2GBColour (r g b : Nat) : Nat :=
  (r <<< 16) ||| (g <<< 8) ||| b

/-- The return line of `colourFunctions.glowbitColour2RGB`
(`src/glowbit.py:89`), transcribed verbatim.  It has four opening and five
closing parentheses: the module cannot parse. -/
def glowbitColour2RGBLine89 : String :=
  "        return ( (colour&0xFF0000) >> 16) , (colour&0xFF00)>> 8, (colour&0xFF) )"

/-- Parenthesis matching as Python performs it while tokenizing: depth goes up
at each opening and down at each closing parenthesis, a closing parenthesis at
depth zero is an unmatched close (Python: SyntaxError), and a positive depth
at end of input is an unmatched open. -/
def parenScan : List Char → Nat → Except String Unit
  | [], 0 => Except.ok ()
  | [], _ + 1 => Except.error "unmatched open paren"
  | c :: rest, d =>
    if c = '(' then parenScan rest (d + 1)
    else if c = ')' then
      if d = 0 then Except.error "unmatched close paren"
      else parenScan rest (d - 1)
    else parenScan rest d

/-- Parenthesis check of a source line, starting at depth zero. -/
def pyParens (s : String) : Except String Unit :=
  parenScan s.toList 0

/-- `colourFunctions.glowbitColour2RGB`, as evidently intended.  The actual
return line (`glowbitColour2RGBLine89`) has an unmatched closing parenthesis
and cannot run — see `rgb_roundtrip_syntax_bug` — so this definition models
the intended expression, the docstring's "(R,G,B) tuple" unpacking of the
documented `0x00RRGGBB` format; the other claims use it only as that format's
per-channel extractor. -/
def glowbitColour2RGB (colour : Nat) : Nat × Nat × Nat :=
  (((colour &&& 0xFF0000) >>> 16), ((colour &&& 0xFF00) >>> 8), (colour &&& 0xFF))

/-- `colourFunctions.wheel`: `pos = pos % 255` then three linear segments.
The viper `int` argument is non-negative in every use considered here, so
the function is embedded over `Nat` (Python `%` and `Nat.mod` agree there). -/
def wheel (pos : Nat) : Nat :=
  let pos := pos % 255
  if pos < 85 then
    ((255 - pos * 3) <<< 16) ||| ((pos * 3) <<< 8)
  else if pos < 170 then
    let pos := pos - 85
    ((255 - pos * 3) <<< 8) ||| (pos * 3)
  else
    let pos := pos - 170
    ((pos * 3) <<< 16) ||| (255 - pos * 3)

/-- Absolute difference of two channel intensities. -/
def chanDiff (a b : Nat) : Nat := max a b - min a b

lemma and_255_eq_mod (x : Nat) : x &&& 255 = x % 256 := by
  have h := Nat.and_pow_two_sub_one_eq_mod x 8
  norm_num at h
  exact h

lemma mask_shift (v n : Nat) : (v &&& (255 <<< n)) >>> n = (v >>> n) &&& 255 := by
  apply Nat.eq_of_testBit_eq
  intro i
  simp only [Nat.testBit_shiftRight, Nat.testBit_and, Nat.testBit_shiftLeft]
  have h1 : n ≤ n + i := Nat.le_add_right n i
  simp [h1, Nat.add_sub_cancel_left]

lemma glowbitColour2RGB_eq (v : Nat) :
    glowbitColour2RGB v = (v / 65536 % 256, v / 256 % 256, v % 256) := by
  unfold glowbitColour2RGB
  rw [show (0xFF0000 : Nat) = 255 <<< 16 by decide,
      show (0xFF00 : Nat) = 255 <<< 8 by decide]
  rw [mask_shift, mask_shift]
  rw [and_255_eq_mod, and_255_eq_mod, and_255_eq_mod]
  rw [Nat.shiftRight_eq_div_pow, Nat.shiftRight_eq_div_pow]

lemma rgb2GBColour_eq (r g b : Nat) (hg : g ≤ 255) (hb : b ≤ 255) :
    rgb2GBColour r g b = 65536 * r + (256 * g + b) := by
  have hb' : b < 2 ^ 8 := by omega
  have hgb : 2 ^ 8 * g + b < 2 ^ 16 := by omega
  unfold rgb2GBColour
  rw [Nat.or_assoc, Nat.shiftLeft_eq, Nat.shiftLeft_eq]
  rw [Nat.mul_comm g (2 ^ 8), Nat.mul_comm r (2 ^ 16)]
  rw [← Nat.mul_add_lt_is_or hb' g]
  rw [← Nat.mul_add_lt_is_or hgb r]
  norm_num

lemma roundtrip_aux (r g b : Nat) (hr : r ≤ 255) (hg : g ≤ 255) (hb : b ≤ 255) :
    glowbitColour2RGB (rgb2GBColour r g b) = (r, g, b) := by
  rw [glowbitColour2RGB_eq, rgb2GBColour_eq r g b hg hb]
  simp only [Prod.mk.injEq]
  refine ⟨by omega, by omega, by omega⟩

/-- Claim C4: the claimed round-trip is what the source intends — the
docstring of `glowbitColour2RGB` promises the "(R,G,B)" components of the
packed colour, and for the intended unpacking expression
`glowbitColour2RGB (rgb2GBColour r g b) = (r, g, b)` holds for all channels
in `[0,255]` — but the function's actual return line has an unmatched closing
parenthesis, so the module raises `SyntaxError` at parse time and the
function as written can never run, let alone round-trip. -/
theorem rgb_roundtrip_syntax_bug (r g b : Nat) (hr : r ≤ 255) (hg : g ≤ 255) (hb : b ≤ 255) :
    pyParens glowbitColour2RGBLine89 = Except.error "unmatched close paren" ∧
    glowbitColour2RGB (rgb2GBColour r g b) = (r, g, b) :=
  ⟨rfl, roundtrip_aux r g b hr hg hb⟩

/-- Witness for C4 at the concrete triple (12, 200, 255). -/
theorem rgb_roundtrip_syntax_bug_witness :
    pyParens glowbitColour2RGBLine89 = Except.error "unmatched close paren" ∧
    glowbitColour2RGB (rgb2GBColour 12 200 255) = (12, 200, 255) :=
  rgb_roundtrip_syntax_bug 12 200 255 (by decide) (by decide) (by decide)

/-- Claim C7: `wheel 0 = wheel 255` (full-cycle continuity), and at the segment
boundaries `pos = 85` and `pos = 170` every channel of `wheel` moves by at most
one ramp step (the ramps change a channel by 3 per unit of `pos`, and the jump
across each boundary is also at most 3), so the three linear segments join
without a jump discontinuity. -/
theorem wheel_cycle_and_boundaries :
    wheel 0 = wheel 255 ∧
    chanDiff (glowbitColour2RGB (wheel 84)).1 (glowbitColour2RGB (wheel 85)).1 ≤ 3 ∧
    chanDiff (glowbitColour2RGB (wheel 84)).2.1 (glowbitColour2RGB (wheel 85)).2.1 ≤ 3 ∧
    chanDiff (glowbitColour2RGB (wheel 84)).2.2 (glowbitColour2RGB (wheel 85)).2.2 ≤ 3 ∧
    chanDiff (glowbitColour2RGB (wheel 169)).1 (glowbitColour2RGB (wheel 170)).1 ≤ 3 ∧
    chanDiff (glowbitColour2RGB (wheel 169)).2.1 (glowbitColour2RGB (wheel 170)).2.1 ≤ 3 ∧
    chanDiff (glowbitColour2RGB (wheel 169)).2.2 (glowbitColour2RGB (wheel 170)).2.2 ≤ 3 := by
  decide

/-- `matrix8x8.remap8x8` (viper): serpentine mapping of an (x,y) coordinate to
a linear LED index for a `tileRows × tileCols` grid of 8×8 tiles.  Python's
`//` and `%` on `int` with the positive divisors 8 and 2 are `Int.ediv` and
`Int.emod`, i.e. Lean's `/` and `%` on `Int`. -/
def remap8x8 (tileCols x y : Int) : Int :=
  if (y / 8) % 2 = 0 then
    64 * ((y / 8) * tileCols + x / 8) + (8 * (y % 8) + x % 8)
  else
    64 * ((y / 8) * tileCols + (tileCols - x / 8 - 1)) + (8 * (y % 8) + x % 8)

/-- The 8×8 remapper as the spec words it: each 8×8 tile contributes a
contiguous 64-address block; even tile-rows walk tile-columns left to right
and odd tile-rows right to left; within a tile addressing is row-major
`8*(y mod 8) + (x mod 8)`.  Stated separately from `remap8x8` so that the two
can be compared. -/
def remap8x8Spec (tileCols x y : Int) : Int :=
  let tx := x / 8
  let ty := y / 8
  let tileOrder :=
    if ty % 2 = 0 then ty * tileCols + tx else ty * tileCols + (tileCols - 1 - tx)
  64 * tileOrder + (8 * (y % 8) + x % 8)

/-- Claim C2: for tileRows=1, tileCols=2 the remapper sends (0,0) to 0, (7,0)
to 7 and (8,0) to 64; and over the whole declared domain it agrees with the
spec's serpentine description, with the within-tile offset `8*(y mod 8) + (x
mod 8)` lying in `[0, 64)` so that each tile occupies a contiguous 64-address
block. -/
theorem remap8x8_serpentine (tileRows tileCols x y : Int)
    (hx0 : 0 ≤ x) (hx : x < 8 * tileCols) (hy0 : 0 ≤ y) (hy : y < 8 * tileRows) :
    remap8x8 2 0 0 = 0 ∧ remap8x8 2 7 0 = 7 ∧ remap8x8 2 8 0 = 64 ∧
    remap8x8 tileCols x y = remap8x8Spec tileCols x y ∧
    0 ≤ 8 * (y % 8) + x % 8 ∧ 8 * (y % 8) + x % 8 < 64 := by
  refine ⟨by decide, by decide, by decide, ?_, by omega, by omega⟩
  unfold remap8x8 remap8x8Spec
  by_cases h : (y / 8) % 2 = 0
  · simp only [h, if_pos]
  · simp only [h, if_neg, if_false]
    ring_nf

/-- Witness for C2 at tileRows=1, tileCols=2, (x,y) = (9,0). -/
theorem remap8x8_serpentine_witness :
    remap8x8 2 0 0 = 0 ∧ remap8x8 2 7 0 = 7 ∧ remap8x8 2 8 0 = 64 ∧
    remap8x8 2 9 0 = remap8x8Spec 2 9 0 ∧
    0 ≤ 8 * ((0 : Int) % 8) + (9 : Int) % 8 ∧ 8 * ((0 : Int) % 8) + (9 : Int) % 8 < 64 :=
  remap8x8_serpentine 1 2 9 0 (by decide) (by decide) (by decide) (by decide)

/-- The mutable state of a matrix device that the 2D write primitives touch:
its geometry (`numLEDsX`, `numLEDsY`), its remap function and its pixel
buffer `ar` (total map from linear index to stored colour). -/
structure GMatrix where
  numLEDsX : Int
  numLEDsY : Int
  remap : Int → Int → Int
  ar : Int → Nat

/-- `glowbitMatrix.pixelSetXY` (viper): wraps both coordinates modulo the
respective dimension (Python `%`, i.e. `Int.emod`) and writes through the
device's remap function. -/
def pixelSetXY (g : GMatrix) (x y : Int) (colour : Nat) : GMatrix :=
  let x := x % g.numLEDsX
  let y := y % g.numLEDsY
  { g with ar := Function.update g.ar (g.remap x y) colour }

/-- `glowbitMatrix.pixelSetXYClip` (viper): writes only when
`x >= 0 and y >= 0 and x < numLEDsX and y < numLEDsY`. -/
def pixelSetXYClip (g : GMatrix) (x y : Int) (colour : Nat) : GMatrix :=
  if 0 ≤ x ∧ 0 ≤ y ∧ x < g.numLEDsX ∧ y < g.numLEDsY then
    { g with ar := Function.update g.ar (g.remap x y) colour }
  else g

/-- Claim C5: for any coordinate outside `[0,numLEDsX) × [0,numLEDsY)` the
clipped setter leaves every buffer cell unchanged; and for every integer
coordinate (negative ones included) the wrapping setter writes the colour to
the cell obtained by wrapping x and y modulo the respective dimension before
remapping (the wrapped coordinate being in range), leaving all other cells
unchanged. -/
theorem setters_clip_and_wrap (g : GMatrix) (x y : Int) (colour : Nat)
    (hX : 0 < g.numLEDsX) (hY : 0 < g.numLEDsY) :
    (¬ (0 ≤ x ∧ 0 ≤ y ∧ x < g.numLEDsX ∧ y < g.numLEDsY) →
      pixelSetXYClip g x y colour = g) ∧
    (0 ≤ x % g.numLEDsX ∧ x % g.numLEDsX < g.numLEDsX ∧
     0 ≤ y % g.numLEDsY ∧ y % g.numLEDsY < g.numLEDsY) ∧
    pixelSetXY g x y colour = pixelSetXY g (x % g.numLEDsX) (y % g.numLEDsY) colour ∧
    (pixelSetXY g x y colour).ar (g.remap (x % g.numLEDsX) (y % g.numLEDsY)) = colour ∧
    (∀ j, j ≠ g.remap (x % g.numLEDsX) (y % g.numLEDsY) →
      (pixelSetXY g x y colour).ar j = g.ar j) := by
  refine ⟨fun h => by simp [pixelSetXYClip, h], ?_, ?_, ?_, ?_⟩
  · exact ⟨Int.emod_nonneg x (by omega), Int.emod_lt_of_pos x hX,
      Int.emod_nonneg y (by omega), Int.emod_lt_of_pos y hY⟩
  · simp [pixelSetXY, Int.emod_emod_of_dvd _ dvd_rfl]
  · simp [pixelSetXY, Function.update_same]
  · intro j hj
    simp [pixelSetXY, Function.update_noteq hj]

/-- Example 4×4 matrix used to witness C5 at a concrete input. -/
def gEx : GMatrix := ⟨4, 4, fun x y => 4 * y + x, fun _ => 0⟩

/-- Witness for C5 on `gEx` at (x,y) = (-1, 5): the wrapping setter writes the
colour at the remap of the wrapped coordinate. -/
theorem setters_clip_and_wrap_witness :
    (pixelSetXY gEx (-1) 5 7).ar (gEx.remap ((-1) % gEx.numLEDsX) (5 % gEx.numLEDsY)) = 7 :=
  (setters_clip_and_wrap gEx (-1) 5 7 (by decide) (by decide)).2.2.2.1

/-- `matrix4x4.remap4x4` (viper).  The source also computes an unused local
`mx = x - 4*mc`, omitted here. -/
def remap4x4 (x y : Int) : Int :=
  let mc := x / 4
  let TopLeftIndex := mc * 16
  let LEDsBefore := 4 * y + x - 4 * mc
  TopLeftIndex + LEDsBefore

/-- Python `range(a, b)` over ints, as a list. -/
def intRange (a b : Int) : List Int :=
  (List.range (b - a).toNat).map fun k => a + (k : Int)

/-- `glowbitMatrix.drawRectangleFill` (viper): nested `range(x0, x1+1)` /
`range(y0, y1+1)` loops, each iteration calling the wrapping setter
`pixelSetXY` (not the clipped one). -/
def drawRectangleFill (g : GMatrix) (x0 y0 x1 y1 : Int) (colour : Nat) : GMatrix :=
  (intRange x0 (x1 + 1)).foldl
    (fun acc x => (intRange y0 (y1 + 1)).foldl (fun acc2 y => pixelSetXY acc2 x y colour) acc)
    g

lemma rectFill_3x3_ar (ar0 : Int → Nat) (c : Nat) (j : Int) :
    (drawRectangleFill ⟨4, 4, remap4x4, ar0⟩ 0 0 2 2 c).ar j =
      if j = 0 ∨ j = 1 ∨ j = 2 ∨ j = 4 ∨ j = 5 ∨ j = 6 ∨ j = 8 ∨ j = 9 ∨ j = 10 then c
      else ar0 j := by
  have hr : intRange 0 (2 + 1) = [0, 1, 2] := by decide
  simp only [drawRectangleFill, hr, List.foldl]
  norm_num [pixelSetXY, remap4x4, Function.update_apply]
  split_ifs <;> omega

/-- Claim C8: on a 4×4 matrix, `drawRectangleFill 0 0 2 2 colour` writes
`colour` to exactly the 9 cells with x,y in `[0,2]` (all other buffer cells
keep their prior value), and it writes through the wrapping setter: a fill
addressed entirely off-canvas at (4,6) still lands on the wrapped cell
(0,2). -/
theorem drawRectangleFill_3x3 (ar0 : Int → Nat) (c : Nat) :
    (∀ x y : Int, 0 ≤ x → x < 4 → 0 ≤ y → y < 4 →
      (drawRectangleFill ⟨4, 4, remap4x4, ar0⟩ 0 0 2 2 c).ar (remap4x4 x y) =
        if x ≤ 2 ∧ y ≤ 2 then c else ar0 (remap4x4 x y)) ∧
    (∀ j : Int, j < 0 ∨ 16 ≤ j →
      (drawRectangleFill ⟨4, 4, remap4x4, ar0⟩ 0 0 2 2 c).ar j = ar0 j) ∧
    (drawRectangleFill ⟨4, 4, remap4x4, ar0⟩ 4 6 4 6 c).ar (remap4x4 0 2) = c := by
  refine ⟨?_, ?_, ?_⟩
  · intro x y hx0 hx hy0 hy
    rw [rectFill_3x3_ar]
    simp only [remap4x4]
    split_ifs <;> first | rfl | omega
  · intro j hj
    rw [rectFill_3x3_ar]
    rw [if_neg (by omega)]
  · have hrx : intRange 4 (4 + 1) = [4] := by decide
    have hry : intRange 6 (6 + 1) = [6] := by decide
    simp only [drawRectangleFill, hrx, hry, List.foldl]
    norm_num [pixelSetXY, remap4x4, Function.update_apply]

/-- Witness for C8: with prior buffer constantly 99 and colour 7, the cell
(3,3) is outside the filled rectangle and keeps its prior value. -/
theorem drawRectangleFill_3x3_witness :
    (drawRectangleFill ⟨4, 4, remap4x4, fun _ => 99⟩ 0 0 2 2 7).ar (remap4x4 3 3) = 99 := by
  have h := (drawRectangleFill_3x3 (fun _ => 99) 7).1 3 3 (by decide) (by decide) (by decide)
    (by decide)
  simpa using h

/-- `glowbit.pixelAdd` (viper): `tmp = int(self.ar[i]) + colour; self.ar[i] = tmp`.
The linear pixel buffer of a `glowbit` device is modelled as a total map from
index to stored value; the sums occurring in the claims stay far below 2^32,
so no 32-bit wrap-around is involved. -/
def pixelAdd (ar : Int → Nat) (i : Int) (colour : Nat) : Int → Nat :=
  Function.update ar i (ar i + colour)

/-- Claim C6: `pixelAdd i colour` stores exactly the raw integer sum of the
previous buffer value and `colour` (no per-channel saturation, other cells
untouched); consequently, when the blue channels sum to 256 (and the green
channels leave room for the carry), the stored value has blue channel 0 and a
green channel one larger than the green channels' sum. -/
theorem pixelAdd_raw_sum (ar : Int → Nat) (i : Int) (colour : Nat) :
    pixelAdd ar i colour i = ar i + colour ∧
    (∀ j, j ≠ i → pixelAdd ar i colour j = ar j) ∧
    (ar i < 2 ^ 24 → colour < 2 ^ 24 →
      (glowbitColour2RGB (ar i)).2.2 + (glowbitColour2RGB colour).2.2 = 256 →
      (glowbitColour2RGB (ar i)).2.1 + (glowbitColour2RGB colour).2.1 ≤ 254 →
      (glowbitColour2RGB (pixelAdd ar i colour i)).2.2 = 0 ∧
      (glowbitColour2RGB (pixelAdd ar i colour i)).2.1 =
        (glowbitColour2RGB (ar i)).2.1 + (glowbitColour2RGB colour).2.1 + 1) := by
  refine ⟨Function.update_same i _ ar, fun j hj => Function.update_noteq hj _ ar, ?_⟩
  intro hv hc hblue hgreen
  have hupd : pixelAdd ar i colour i = ar i + colour := Function.update_same i _ ar
  rw [hupd]
  simp only [glowbitColour2RGB_eq] at hblue hgreen ⊢
  omega

/-- Witness for C6: buffer value 0x0000FF plus colour 0x000101 stores
0x000200 — blue overflows to 0 and carries into green. -/
theorem pixelAdd_raw_sum_witness :
    pixelAdd (fun _ => 0xFF) 0 0x101 0 = (fun _ => (0xFF : Nat)) 0 + 0x101 ∧
    (glowbitColour2RGB (pixelAdd (fun _ => 0xFF) 0 0x101 0)).2.2 = 0 ∧
    (glowbitColour2RGB (pixelAdd (fun _ => 0xFF) 0 0x101 0)).2.1 =
      (glowbitColour2RGB ((fun _ => (0xFF : Nat)) 0)).2.1 +
        (glowbitColour2RGB (0x101 : Nat)).2.1 + 1 := by
  have h := pixelAdd_raw_sum (fun _ => 0xFF) 0 0x101
  exact ⟨h.1, (h.2.2 (by decide) (by decide) (by decide) (by decide)).1,
    (h.2.2 (by decide) (by decide) (by decide) (by decide)).2⟩

/-- `glowbit.__pixelsShowRPi`: per buffer entry `c`, each channel is scaled by
`(channel * brightness) >> 8` and the result is handed to the transport as
`(r<<16) | (g<<8) | b` via `strip.setPixelColor`; the pixel buffer `ar` is
only read.  Returns (buffer after the flush, words handed to the transport in
index order). -/
def pixelsShowRPi (ar : List Nat) (brightness : Nat) : List Nat × List Nat :=
  (ar, ar.map fun c =>
    let r := (((c >>> 16) &&& 0xFF) * brightness) >>> 8
    let g := (((c >>> 8) &&& 0xFF) * brightness) >>> 8
    let b := ((c &&& 0xFF) * brightness) >>> 8
    (r <<< 16) ||| (g <<< 8) ||| b)

/-- `glowbit.__pixelsShowPico`: same per-channel scaling, but the word pushed
into the PIO state machine is `(g<<16) | (r<<8) | b` (the wire's GRB order);
the pixel buffer `ar` is only read (the scaled words go to `dimmer_ar`). -/
def pixelsShowPico (ar : List Nat) (brightness : Nat) : List Nat × List Nat :=
  (ar, ar.map fun c =>
    let r := (((c >>> 16) &&& 0xFF) * brightness) >>> 8
    let g := (((c >>> 8) &&& 0xFF) * brightness) >>> 8
    let b := ((c &&& 0xFF) * brightness) >>> 8
    (g <<< 16) ||| (r <<< 8) ||| b)

lemma scaled_channel_le (chan br : Nat) (hbr : br ≤ 255) :
    ((chan &&& 0xFF) * br) >>> 8 ≤ 255 := by
  rw [and_255_eq_mod, Nat.shiftRight_eq_div_pow]
  have h1 : chan % 256 ≤ 255 := by omega
  have h2 : chan % 256 * br ≤ 255 * 255 := Nat.mul_le_mul h1 hbr
  norm_num
  omega

lemma shiftRight8_eq (n : Nat) : n >>> 8 = n / 256 := by
  rw [Nat.shiftRight_eq_div_pow]

lemma showWord_channels (c br : Nat) (hbr : br ≤ 255) :
    glowbitColour2RGB
      (((((c >>> 16) &&& 0xFF) * br) >>> 8) <<< 16 |||
        ((((c >>> 8) &&& 0xFF) * br) >>> 8) <<< 8 |||
        (((c &&& 0xFF) * br) >>> 8)) =
      ((glowbitColour2RGB c).1 * br / 256,
       (glowbitColour2RGB c).2.1 * br / 256,
       (glowbitColour2RGB c).2.2 * br / 256) := by
  have hr : (((c >>> 16) &&& 0xFF) * br) >>> 8 ≤ 255 := scaled_channel_le _ br hbr
  have hg : (((c >>> 8) &&& 0xFF) * br) >>> 8 ≤ 255 := scaled_channel_le _ br hbr
  have hb : ((c &&& 0xFF) * br) >>> 8 ≤ 255 := scaled_channel_le _ br hbr
  rw [show ((((c >>> 16) &&& 0xFF) * br) >>> 8) <<< 16 |||
        ((((c >>> 8) &&& 0xFF) * br) >>> 8) <<< 8 |||
        (((c &&& 0xFF) * br) >>> 8) =
      rgb2GBColour ((((c >>> 16) &&& 0xFF) * br) >>> 8)
        ((((c >>> 8) &&& 0xFF) * br) >>> 8) ((((c &&& 0xFF)) * br) >>> 8) from rfl]
  rw [roundtrip_aux _ _ _ hr hg hb]
  rw [glowbitColour2RGB_eq]
  simp only [Prod.mk.injEq]
  rw [shiftRight8_eq, shiftRight8_eq, shiftRight8_eq]
  rw [and_255_eq_mod, and_255_eq_mod, and_255_eq_mod]
  rw [Nat.shiftRight_eq_div_pow, Nat.shiftRight_eq_div_pow]
  norm_num

lemma showWordPico_channels (c br : Nat) (hbr : br ≤ 255) :
    glowbitColour2RGB
      (((((c >>> 8) &&& 0xFF) * br) >>> 8) <<< 16 |||
        ((((c >>> 16) &&& 0xFF) * br) >>> 8) <<< 8 |||
        (((c &&& 0xFF) * br) >>> 8)) =
      ((glowbitColour2RGB c).2.1 * br / 256,
       (glowbitColour2RGB c).1 * br / 256,
       (glowbitColour2RGB c).2.2 * br / 256) := by
  have hr : (((c >>> 16) &&& 0xFF) * br) >>> 8 ≤ 255 := scaled_channel_le _ br hbr
  have hg : (((c >>> 8) &&& 0xFF) * br) >>> 8 ≤ 255 := scaled_channel_le _ br hbr
  have hb : ((c &&& 0xFF) * br) >>> 8 ≤ 255 := scaled_channel_le _ br hbr
  rw [show ((((c >>> 8) &&& 0xFF) * br) >>> 8) <<< 16 |||
        ((((c >>> 16) &&& 0xFF) * br) >>> 8) <<< 8 |||
        (((c &&& 0xFF) * br) >>> 8) =
      rgb2GBColour ((((c >>> 8) &&& 0xFF) * br) >>> 8)
        ((((c >>> 16) &&& 0xFF) * br) >>> 8) ((((c &&& 0xFF)) * br) >>> 8) from rfl]
  rw [roundtrip_aux _ _ _ hg hr hb]
  rw [glowbitColour2RGB_eq]
  simp only [Prod.mk.injEq]
  rw [shiftRight8_eq, shiftRight8_eq, shiftRight8_eq]
  rw [and_255_eq_mod, and_255_eq_mod, and_255_eq_mod]
  rw [Nat.shiftRight_eq_div_pow, Nat.shiftRight_eq_div_pow]
  norm_num

lemma map_getD (f : Nat → Nat) (l : List Nat) (i : Nat) (h : i < l.length) :
    (l.map f).getD i 0 = f (l.getD i 0) := by
  have hs : l[i]? = some l[i] := List.getElem?_eq_getElem h
  rw [List.getD_eq_getElem?_getD, List.getD_eq_getElem?_getD, List.getElem?_map, hs]
  simp

/-- Claim C1, amended: at flush time each channel handed to the transport is
`floor(channel * brightness / 256)` — the source computes
`(channel * brightness) >> 8`, a division by 256, not by 255 — and the pixel
buffer itself is left unchanged by the flush (it always stores the un-scaled
colour).  On the RPi backend words are RGB-ordered; on the Pico backend the
red and green channels swap places (GRB wire order). -/
theorem pixelsShow_scaling (ar : List Nat) (br : Nat) (hbr : br ≤ 255) :
    (pixelsShowRPi ar br).1 = ar ∧
    (pixelsShowPico ar br).1 = ar ∧
    (∀ i, i < ar.length →
      glowbitColour2RGB ((pixelsShowRPi ar br).2.getD i 0) =
        ((glowbitColour2RGB (ar.getD i 0)).1 * br / 256,
         (glowbitColour2RGB (ar.getD i 0)).2.1 * br / 256,
         (glowbitColour2RGB (ar.getD i 0)).2.2 * br / 256)) ∧
    (∀ i, i < ar.length →
      glowbitColour2RGB ((pixelsShowPico ar br).2.getD i 0) =
        ((glowbitColour2RGB (ar.getD i 0)).2.1 * br / 256,
         (glowbitColour2RGB (ar.getD i 0)).1 * br / 256,
         (glowbitColour2RGB (ar.getD i 0)).2.2 * br / 256)) := by
  refine ⟨rfl, rfl, ?_, ?_⟩
  · intro i hi
    have hmap : (pixelsShowRPi ar br).2 = ar.map (fun c =>
        ((((c >>> 16) &&& 0xFF) * br) >>> 8) <<< 16 |||
        ((((c >>> 8) &&& 0xFF) * br) >>> 8) <<< 8 |||
        (((c &&& 0xFF) * br) >>> 8)) := rfl
    rw [hmap, map_getD _ ar i hi]
    exact showWord_channels (ar.getD i 0) br hbr
  · intro i hi
    have hmap : (pixelsShowPico ar br).2 = ar.map (fun c =>
        ((((c >>> 8) &&& 0xFF) * br) >>> 8) <<< 16 |||
        ((((c >>> 16) &&& 0xFF) * br) >>> 8) <<< 8 |||
        (((c &&& 0xFF) * br) >>> 8)) := rfl
    rw [hmap, map_getD _ ar i hi]
    exact showWordPico_channels (ar.getD i 0) br hbr

/-- Witness for the amended C1 at brightness 255 on the buffer [0xFF0000]. -/
theorem pixelsShow_scaling_witness :
    glowbitColour2RGB ((pixelsShowRPi [0xFF0000] 255).2.getD 0 0) =
      ((glowbitColour2RGB (([0xFF0000] : List Nat).getD 0 0)).1 * 255 / 256,
       (glowbitColour2RGB (([0xFF0000] : List Nat).getD 0 0)).2.1 * 255 / 256,
       (glowbitColour2RGB (([0xFF0000] : List Nat).getD 0 0)).2.2 * 255 / 256) :=
  (pixelsShow_scaling [0xFF0000] 255 (by decide)).2.2.1 0 (by decide)

/-- Claim C1 as stated is false on the code: with brightness 255 and a
full-red pixel, the transport receives red channel (255*255) >> 8 = 254,
whereas floor(channel * brightness / 255) = 255. -/
theorem pixelsShow_div255_refuted :
    (glowbitColour2RGB ((pixelsShowRPi [0xFF0000] 255).2.getD 0 0)).1 = 254 ∧
    (glowbitColour2RGB (0xFF0000 : Nat)).1 * 255 / 255 = 255 ∧
    (254 : Nat) ≠ 255 := by
  decide

/-- `glowbit.__syncWait`:
`while self.ticks_ms() < (self.lastFrame_ms + 1000 // self.rateLimit): continue`
followed by `self.lastFrame_ms = self.ticks_ms()`.  The clock is modelled as
the sequence `t` of values returned by successive `ticks_ms()` calls and `k`
counts the calls made so far: the loop consumes one reading per test and ends
at the first reading `≥ lastFrame + 1000 / rateLimit`, and the assignment
consumes one more reading, which becomes the new `lastFrame_ms`.  Returns
(updated call counter, new `lastFrame_ms`). -/
def syncWait (t : Nat → Nat) (k lastFrame rateLimit : Nat)
    (h : ∃ n, lastFrame + 1000 / rateLimit ≤ t (k + n)) : Nat × Nat :=
  (k + Nat.find h + 2, t (k + Nat.find h + 1))

lemma syncWait_lastFrame_ge (t : Nat → Nat) (mono : Monotone t)
    (k lastFrame rateLimit : Nat) (h : ∃ n, lastFrame + 1000 / rateLimit ≤ t (k + n)) :
    lastFrame + 1000 / rateLimit ≤ (syncWait t k lastFrame rateLimit h).2 := by
  have h1 := Nat.find_spec h
  have h2 : t (k + Nat.find h) ≤ t (k + Nat.find h + 1) := mono (by omega)
  simp only [syncWait]
  omega

/-- Claim C3: `__syncWait` busy-waits while `now() < lastFrame_ms + 1000/FPS`,
exits at the first clock reading at or past that bound, and then stores a
fresh reading into `lastFrame_ms`; with the configured FPS = 10 the new
`lastFrame_ms` is at least 100 ms after the old one, so two consecutive
flushes (each flush calls `__syncWait` first and then hands the frame to the
transport) are at least 100 ms apart on any monotone clock. -/
theorem syncWait_rate_limit (t : Nat → Nat) (mono : Monotone t) (k lf : Nat)
    (h1 : ∃ n, lf + 1000 / 10 ≤ t (k + n))
    (h2 : ∃ n, (syncWait t k lf 10 h1).2 + 1000 / 10 ≤ t ((syncWait t k lf 10 h1).1 + n)) :
    (∀ m, m < Nat.find h1 → t (k + m) < lf + 1000 / 10) ∧
    lf + 1000 / 10 ≤ t (k + Nat.find h1) ∧
    (syncWait t k lf 10 h1).2 = t (k + Nat.find h1 + 1) ∧
    lf + 100 ≤ (syncWait t k lf 10 h1).2 ∧
    (syncWait t k lf 10 h1).2 + 100 ≤
      (syncWait t (syncWait t k lf 10 h1).1 (syncWait t k lf 10 h1).2 10 h2).2 := by
  refine ⟨?_, Nat.find_spec h1, rfl, ?_, ?_⟩
  · intro m hm
    have := Nat.find_min h1 hm
    omega
  · have := syncWait_lastFrame_ge t mono k lf 10 h1
    omega
  · have := syncWait_lastFrame_ge t mono (syncWait t k lf 10 h1).1 (syncWait t k lf 10 h1).2 10 h2
    omega

theorem syncWaitClockH1 : ∃ n, (0 : Nat) + 1000 / 10 ≤ id (0 + n) :=
  ⟨100, by norm_num⟩

theorem syncWaitClockH2 :
    ∃ n, (syncWait id 0 0 10 syncWaitClockH1).2 + 1000 / 10 ≤
      id ((syncWait id 0 0 10 syncWaitClockH1).1 + n) := by
  have hf : Nat.find syncWaitClockH1 = 100 := by
    rw [Nat.find_eq_iff]
    refine ⟨by norm_num, ?_⟩
    intro m hm
    simp only [id_eq]
    omega
  refine ⟨99, ?_⟩
  simp only [syncWait, hf, id_eq]
  omega

/-- Witness for C3 on the identity clock starting at `lastFrame_ms = 0`. -/
theorem syncWait_rate_limit_witness :
    (syncWait id 0 0 10 syncWaitClockH1).2 + 100 ≤
      (syncWait id (syncWait id 0 0 10 syncWaitClockH1).1
        (syncWait id 0 0 10 syncWaitClockH1).2 10 syncWaitClockH2).2 :=
  (syncWait_rate_limit id (fun _ _ hab => hab) 0 0 syncWaitClockH1 syncWaitClockH2).2.2.2.2

/-- The direction-dependent part of `glowbitMatrix.graph1D.__init__` with the
lines it prints: the sentinel pair starts as `orientation = -1`, `inc = 0`,
the four direction checks follow in source order, and an unrecognized
direction prints the diagnostic and sets `orientation = 1`, `inc = 1`.
Returns (orientation, inc, printed lines). -/
def graph1DInitDir (direction : String) : Int × Int × List String :=
  let s0 : Int × Int := (-1, 0)
  let s1 := if direction = "Up" then ((1 : Int), (-1 : Int)) else s0
  let s2 := if direction = "Down" then ((1 : Int), (1 : Int)) else s1
  let s3 := if direction = "Left" then ((0 : Int), (-1 : Int)) else s2
  let s4 := if direction = "Right" then ((0 : Int), (1 : Int)) else s3
  if s4.1 = -1 ∨ s4.2 = 0 then
    (1, 1, ["Invalid direction " ++ direction,
            "Valid options: Up, Down, Left, Right",
            "Defaulting to Up"])
  else
    (s4.1, s4.2, [])

/-- Claim C9: an unrecognized direction string never raises — the constructor
logs a diagnostic ending in "Defaulting to Up" — but the resulting fields are
`orientation = 1, inc = 1`, which is the configuration of direction "Down";
direction "Up" produces `inc = -1`, so the fallback object does NOT match a
direction="Up" construction, contradicting the printed fallback. -/
theorem graph1D_invalid_direction :
    graph1DInitDir "Diagonal" =
      (1, 1, ["Invalid direction Diagonal",
              "Valid options: Up, Down, Left, Right",
              "Defaulting to Up"]) ∧
    graph1DInitDir "Up" = (1, -1, []) ∧
    graph1DInitDir "Down" = (1, 1, []) ∧
    (graph1DInitDir "Diagonal").2.1 ≠ (graph1DInitDir "Up").2.1 := by
  refine ⟨rfl, rfl, rfl, by decide⟩

/-- The names bound at module scope in `glowbit.py` (the bindings of both
platform branches included).  There is no module-global `remap`; each matrix
object stores its remap function as the attribute `self.remap`. -/
def moduleGlobalNames : List String :=
  ["os", "_SYSNAME", "Pin", "micropython", "rp2", "ws", "ptr32",
   "petme128", "time", "array", "gc",
   "colourFunctions", "colourMaps", "glowbit", "glowbitMatrix",
   "stick", "rainbow", "triangle", "matrix4x4", "matrix8x8"]

/-- `glowbitMatrix.getPixelXY`: `return self.ar[remap(x,y)]`.  The bare name
`remap` has no local binding, so Python resolves it in the module's global
scope; the success branch (which would index the buffer through the resolved
function) is dead because no global `remap` exists, and the call raises
`NameError` before any indexing. -/
def getPixelXY (g : GMatrix) (x y : Int) : Except String Nat :=
  if moduleGlobalNames.contains "remap" then
    Except.ok (g.ar (g.remap x y))
  else
    Except.error "NameError: name remap is not defined"

/-- Claim C10: for every coordinate (x,y), `getPixelXY` raises `NameError`
(the source references the unbound global name `remap` rather than the
device's `self.remap`) and never returns a colour value, even for in-range
coordinates. -/
theorem getPixelXY_always_raises (g : GMatrix) (x y : Int) :
    getPixelXY g x y = Except.error "NameError: name remap is not defined" :=
  rfl

end Glowbit
